import Mathlib

/-!
# myls: a detailed directory lister

A shallow embedding of `myls.c` (`format_permissions`, `list_directory`, `main`)
together with the properties of its specification.

* A C string is a `List Char`, one `Char` per byte, without the terminating NUL.
* `mode_t` and the other unsigned fields are `Nat`; `off_t` is `Int`.
* The operating system (directory enumeration, `lstat`, `readlink`, the identity
  databases, the clock formatting) is an explicit `Env` record of functions.
* The two output streams are the `out` and `err` fields of an `Output`.
-/

namespace Myls

/-- A C string: its bytes, in order, without the terminating NUL. -/
abbrev CStr := List Char

/-! ## Constants and macros of `<sys/stat.h>`

The header belongs to the C library: the repository uses these macros and does not define
them. The values are the POSIX / Linux ones, which the specification names in octal. -/

def S_IFMT : Nat := 0o170000
def S_IFSOCK : Nat := 0o140000
def S_IFLNK : Nat := 0o120000
def S_IFREG : Nat := 0o100000
def S_IFBLK : Nat := 0o060000
def S_IFDIR : Nat := 0o040000
def S_IFCHR : Nat := 0o020000
def S_IFIFO : Nat := 0o010000

def S_ISUID : Nat := 0o4000
def S_ISGID : Nat := 0o2000
def S_ISVTX : Nat := 0o1000

def S_IRUSR : Nat := 0o400
def S_IWUSR : Nat := 0o200
def S_IXUSR : Nat := 0o100
def S_IRGRP : Nat := 0o040
def S_IWGRP : Nat := 0o020
def S_IXGRP : Nat := 0o010
def S_IROTH : Nat := 0o004
def S_IWOTH : Nat := 0o002
def S_IXOTH : Nat := 0o001

/-- The macro `S_ISDIR(m)`, that is `(((m) & S_IFMT) == S_IFDIR)`. -/
def S_ISDIR (mode : Nat) : Bool := mode &&& S_IFMT == S_IFDIR
/-- The macro `S_ISLNK(m)`. -/
def S_ISLNK (mode : Nat) : Bool := mode &&& S_IFMT == S_IFLNK
/-- The macro `S_ISCHR(m)`. -/
def S_ISCHR (mode : Nat) : Bool := mode &&& S_IFMT == S_IFCHR
/-- The macro `S_ISBLK(m)`. -/
def S_ISBLK (mode : Nat) : Bool := mode &&& S_IFMT == S_IFBLK
/-- The macro `S_ISFIFO(m)`. -/
def S_ISFIFO (mode : Nat) : Bool := mode &&& S_IFMT == S_IFIFO
/-- The macro `S_ISSOCK(m)`. -/
def S_ISSOCK (mode : Nat) : Bool := mode &&& S_IFMT == S_IFSOCK

/-- The C truth value of `mode & mask`. -/
def flag (mode mask : Nat) : Bool := mode &&& mask != 0

/-! ## `format_permissions` -/

/-- The function `format_permissions(mode, str)`: the ten characters left in `str`.
Every `let` is one statement of the C body, in source order. -/
def format_permissions (mode : Nat) : List Char :=
  let str : List Char := ['-', '-', '-', '-', '-', '-', '-', '-', '-', '-']
  let str :=
    if S_ISDIR mode then str.set 0 'd'
    else if S_ISLNK mode then str.set 0 'l'
    else if S_ISCHR mode then str.set 0 'c'
    else if S_ISBLK mode then str.set 0 'b'
    else if S_ISFIFO mode then str.set 0 'p'
    else if S_ISSOCK mode then str.set 0 's'
    else str
  let str := if flag mode S_IRUSR then str.set 1 'r' else str
  let str := if flag mode S_IWUSR then str.set 2 'w' else str
  let str := if flag mode S_IXUSR then str.set 3 'x' else str
  let str := if flag mode S_IRGRP then str.set 4 'r' else str
  let str := if flag mode S_IWGRP then str.set 5 'w' else str
  let str := if flag mode S_IXGRP then str.set 6 'x' else str
  let str := if flag mode S_IROTH then str.set 7 'r' else str
  let str := if flag mode S_IWOTH then str.set 8 'w' else str
  let str := if flag mode S_IXOTH then str.set 9 'x' else str
  let str := if flag mode S_ISUID then str.set 3 (if flag mode S_IXUSR then 's' else 'S') else str
  let str := if flag mode S_ISGID then str.set 6 (if flag mode S_IXGRP then 's' else 'S') else str
  let str := if flag mode S_ISVTX then str.set 9 (if flag mode S_IXOTH then 't' else 'T') else str
  str

/-- The mode `mode & ~mask`: every bit of `mask` cleared, the others kept. -/
def clearBits (mode mask : Nat) : Nat := mode ^^^ (mode &&& mask)

/-! ### Closed form of the formatter -/

/-- The glyph the if-chain of `format_permissions` leaves at position 0. -/
def typeGlyph (mode : Nat) : Char :=
  if S_ISDIR mode then 'd'
  else if S_ISLNK mode then 'l'
  else if S_ISCHR mode then 'c'
  else if S_ISBLK mode then 'b'
  else if S_ISFIFO mode then 'p'
  else if S_ISSOCK mode then 's'
  else '-'

/-- The character at an execute position: `x`/`-`, overridden when `special` is set. -/
def execGlyph (special exec : Bool) (lower upper : Char) : Char :=
  if special then (if exec then lower else upper) else (if exec then 'x' else '-')

/-- The six file-type tests of `format_permissions` with the glyph each one selects,
in source order. -/
def typeTests : List (Nat × Char) :=
  [(S_IFDIR, 'd'), (S_IFLNK, 'l'), (S_IFCHR, 'c'), (S_IFBLK, 'b'), (S_IFIFO, 'p'),
   (S_IFSOCK, 's')]

/-- The if-chain of `format_permissions` for position 0, run over the tests in the order
of the list `tests`: the glyph of the first test that holds, `-` when none does. -/
def firstMatch (tests : List (Nat × Char)) (mode : Nat) : Char :=
  match tests with
  | [] => '-'
  | (pat, glyph) :: rest => if mode &&& S_IFMT == pat then glyph else firstMatch rest mode

/-! ## The C library and the operating system -/

/-- The conversion `%-Ns` (and `%-N...`): the text, then blanks up to the minimum width. -/
def padRight (width : Nat) (text : CStr) : CStr :=
  text ++ List.replicate (width - text.length) ' '

/-- The conversion `%Ns` (and `%N...`): blanks up to the minimum width, then the text. -/
def padLeft (width : Nat) (text : CStr) : CStr :=
  List.replicate (width - text.length) ' ' ++ text

/-- The cast `(unsigned long)` on a 64-bit `unsigned long`. -/
def toULong (n : Nat) : Nat := n % 2 ^ 64

/-- The cast `(long)` on a 64-bit two's-complement `long`. -/
def toLong (i : Int) : Int := (i + 2 ^ 63) % 2 ^ 64 - 2 ^ 63

/-- The digits printed by `%lu`. -/
def fmt_lu (n : Nat) : CStr := Nat.toDigits 10 n

/-- The sign and digits printed by `%ld`. -/
def fmt_ld (i : Int) : CStr :=
  if i < 0 then '-' :: Nat.toDigits 10 i.natAbs else Nat.toDigits 10 i.natAbs

/-- The call `snprintf(buf, size, "%s/%s", a, b)`: at most `size - 1` bytes are stored. -/
def snprintf_path (size : Nat) (a b : CStr) : CStr :=
  (a ++ '/' :: b).take (size - 1)

/-- The first `printf` of `list_directory` (the header line). -/
def header_line : CStr :=
  padRight 10 "Type&Perms".toList ++ ' ' :: padLeft 5 "Links".toList ++
    ' ' :: padRight 14 "Owner".toList ++ ' ' :: padRight 12 "Group".toList ++
    ' ' :: padLeft 8 "Size".toList ++ ' ' :: padRight 12 "Modified".toList ++
    ' ' :: "Name".toList ++ ['\n']

/-- The `printf("%-10s %5lu %-14s %-12s %8ld %-12s %s", ...)` of the loop body. -/
def print_row (permissions_str : CStr) (st_nlink : Nat) (owner_name group_name : CStr)
    (st_size : Int) (time_str d_name : CStr) : CStr :=
  padRight 10 permissions_str ++ ' ' :: padLeft 5 (fmt_lu (toULong st_nlink)) ++
    ' ' :: padRight 14 owner_name ++ ' ' :: padRight 12 group_name ++
    ' ' :: padLeft 8 (fmt_ld (toLong st_size)) ++ ' ' :: padRight 12 time_str ++
    ' ' :: d_name

/-- The path `full_path` of the loop body: `snprintf(full_path, 1024, "%s/%s", path, d_name)`. -/
def full_path (path d_name : CStr) : CStr := snprintf_path 1024 path d_name

/-- Every column text of a row fits the minimum width of its conversion: the link count has
at most 5 digits, the owner at most 14 bytes, the group at most 12 bytes, the size at most
8 characters with its sign, the time at most 12 bytes. -/
def columns_fit (st_nlink : Nat) (owner_name group_name : CStr) (st_size : Int)
    (time_str : CStr) : Prop :=
  toULong st_nlink < 100000 ∧ owner_name.length ≤ 14 ∧ group_name.length ≤ 12 ∧
    -10000000 < toLong st_size ∧ toLong st_size < 100000000 ∧ time_str.length ≤ 12

/-! ## Sample inputs -/

/-- A directory path of 1019 bytes: four nested directories with names of 254 bytes. -/
def longDir : CStr :=
  List.replicate 254 'a' ++ '/' :: List.replicate 254 'b' ++ '/' :: List.replicate 254 'c' ++
    '/' :: List.replicate 254 'd'

/-! # Theorems -/

/-! ## The permission formatter -/

theorem ite_set_1 (c : Bool) (x a0 a1 a2 a3 a4 a5 a6 a7 a8 a9 : Char) :
    (if c then ([a0, a1, a2, a3, a4, a5, a6, a7, a8, a9] : List Char).set 1 x else [a0, a1, a2, a3, a4, a5, a6, a7, a8, a9]) =
      [a0, if c then x else a1, a2, a3, a4, a5, a6, a7, a8, a9] := by
  cases c <;> rfl

theorem ite_set_2 (c : Bool) (x a0 a1 a2 a3 a4 a5 a6 a7 a8 a9 : Char) :
    (if c then ([a0, a1, a2, a3, a4, a5, a6, a7, a8, a9] : List Char).set 2 x else [a0, a1, a2, a3, a4, a5, a6, a7, a8, a9]) =
      [a0, a1, if c then x else a2, a3, a4, a5, a6, a7, a8, a9] := by
  cases c <;> rfl

theorem ite_set_3 (c : Bool) (x a0 a1 a2 a3 a4 a5 a6 a7 a8 a9 : Char) :
    (if c then ([a0, a1, a2, a3, a4, a5, a6, a7, a8, a9] : List Char).set 3 x else [a0, a1, a2, a3, a4, a5, a6, a7, a8, a9]) =
      [a0, a1, a2, if c then x else a3, a4, a5, a6, a7, a8, a9] := by
  cases c <;> rfl

theorem ite_set_4 (c : Bool) (x a0 a1 a2 a3 a4 a5 a6 a7 a8 a9 : Char) :
    (if c then ([a0, a1, a2, a3, a4, a5, a6, a7, a8, a9] : List Char).set 4 x else [a0, a1, a2, a3, a4, a5, a6, a7, a8, a9]) =
      [a0, a1, a2, a3, if c then x else a4, a5, a6, a7, a8, a9] := by
  cases c <;> rfl

theorem ite_set_5 (c : Bool) (x a0 a1 a2 a3 a4 a5 a6 a7 a8 a9 : Char) :
    (if c then ([a0, a1, a2, a3, a4, a5, a6, a7, a8, a9] : List Char).set 5 x else [a0, a1, a2, a3, a4, a5, a6, a7, a8, a9]) =
      [a0, a1, a2, a3, a4, if c then x else a5, a6, a7, a8, a9] := by
  cases c <;> rfl

theorem ite_set_6 (c : Bool) (x a0 a1 a2 a3 a4 a5 a6 a7 a8 a9 : Char) :
    (if c then ([a0, a1, a2, a3, a4, a5, a6, a7, a8, a9] : List Char).set 6 x else [a0, a1, a2, a3, a4, a5, a6, a7, a8, a9]) =
      [a0, a1, a2, a3, a4, a5, if c then x else a6, a7, a8, a9] := by
  cases c <;> rfl

theorem ite_set_7 (c : Bool) (x a0 a1 a2 a3 a4 a5 a6 a7 a8 a9 : Char) :
    (if c then ([a0, a1, a2, a3, a4, a5, a6, a7, a8, a9] : List Char).set 7 x else [a0, a1, a2, a3, a4, a5, a6, a7, a8, a9]) =
      [a0, a1, a2, a3, a4, a5, a6, if c then x else a7, a8, a9] := by
  cases c <;> rfl

theorem ite_set_8 (c : Bool) (x a0 a1 a2 a3 a4 a5 a6 a7 a8 a9 : Char) :
    (if c then ([a0, a1, a2, a3, a4, a5, a6, a7, a8, a9] : List Char).set 8 x else [a0, a1, a2, a3, a4, a5, a6, a7, a8, a9]) =
      [a0, a1, a2, a3, a4, a5, a6, a7, if c then x else a8, a9] := by
  cases c <;> rfl

theorem ite_set_9 (c : Bool) (x a0 a1 a2 a3 a4 a5 a6 a7 a8 a9 : Char) :
    (if c then ([a0, a1, a2, a3, a4, a5, a6, a7, a8, a9] : List Char).set 9 x else [a0, a1, a2, a3, a4, a5, a6, a7, a8, a9]) =
      [a0, a1, a2, a3, a4, a5, a6, a7, a8, if c then x else a9] := by
  cases c <;> rfl

theorem format_permissions_eq (mode : Nat) :
    format_permissions mode =
      [typeGlyph mode,
       if flag mode S_IRUSR then 'r' else '-',
       if flag mode S_IWUSR then 'w' else '-',
       execGlyph (flag mode S_ISUID) (flag mode S_IXUSR) 's' 'S',
       if flag mode S_IRGRP then 'r' else '-',
       if flag mode S_IWGRP then 'w' else '-',
       execGlyph (flag mode S_ISGID) (flag mode S_IXGRP) 's' 'S',
       if flag mode S_IROTH then 'r' else '-',
       if flag mode S_IWOTH then 'w' else '-',
       execGlyph (flag mode S_ISVTX) (flag mode S_IXOTH) 't' 'T'] := by
  have h0 : (if S_ISDIR mode then (['-', '-', '-', '-', '-', '-', '-', '-', '-', '-'] : List Char).set 0 'd'
      else if S_ISLNK mode then (['-', '-', '-', '-', '-', '-', '-', '-', '-', '-'] : List Char).set 0 'l'
      else if S_ISCHR mode then (['-', '-', '-', '-', '-', '-', '-', '-', '-', '-'] : List Char).set 0 'c'
      else if S_ISBLK mode then (['-', '-', '-', '-', '-', '-', '-', '-', '-', '-'] : List Char).set 0 'b'
      else if S_ISFIFO mode then (['-', '-', '-', '-', '-', '-', '-', '-', '-', '-'] : List Char).set 0 'p'
      else if S_ISSOCK mode then (['-', '-', '-', '-', '-', '-', '-', '-', '-', '-'] : List Char).set 0 's'
      else ['-', '-', '-', '-', '-', '-', '-', '-', '-', '-'])
      = [typeGlyph mode, '-', '-', '-', '-', '-', '-', '-', '-', '-'] := by
    unfold typeGlyph
    cases S_ISDIR mode <;> cases S_ISLNK mode <;> cases S_ISCHR mode <;>
      cases S_ISBLK mode <;> cases S_ISFIFO mode <;> cases S_ISSOCK mode <;> rfl
  unfold format_permissions
  simp only [h0, ite_set_1, ite_set_2, ite_set_3, ite_set_4, ite_set_5, ite_set_6, ite_set_7,
    ite_set_8, ite_set_9]
  rfl


theorem flag_eq_true_iff (mode mask : Nat) : flag mode mask = true ↔ mode &&& mask ≠ 0 := by
  simp [flag]

theorem flag_eq_false_iff (mode mask : Nat) : flag mode mask = false ↔ mode &&& mask = 0 := by
  simp [flag]

theorem typeGlyph_eq_firstMatch (mode : Nat) : typeGlyph mode = firstMatch typeTests mode := by
  simp [typeGlyph, firstMatch, typeTests, S_ISDIR, S_ISLNK, S_ISCHR, S_ISBLK, S_ISFIFO, S_ISSOCK]

theorem getElem?_zero_format_permissions (mode : Nat) :
    (format_permissions mode)[0]? = some (typeGlyph mode) := by
  rw [format_permissions_eq]; rfl

theorem clearBits_and (mode mask c : Nat) (h : mask &&& c = 0) :
    clearBits mode mask &&& c = mode &&& c := by
  unfold clearBits
  rw [Nat.and_xor_distrib_right, Nat.and_assoc, h, Nat.and_zero, Nat.xor_zero]

theorem clearBits_and_self (mode mask : Nat) : clearBits mode mask &&& mask = 0 := by
  unfold clearBits
  rw [Nat.and_xor_distrib_right, Nat.and_assoc, Nat.and_self, Nat.xor_self]

theorem testBit_clearBits (mode mask i : Nat) :
    (clearBits mode mask).testBit i = (mode.testBit i && !mask.testBit i) := by
  unfold clearBits
  rw [Nat.testBit_xor, Nat.testBit_and]
  cases mode.testBit i <;> cases mask.testBit i <;> rfl

theorem flag_clearBits (mode mask c : Nat) (h : mask &&& c = 0) :
    flag (clearBits mode mask) c = flag mode c := by
  unfold flag; rw [clearBits_and mode mask c h]

theorem typeGlyph_clearBits (mode mask : Nat) (h : mask &&& S_IFMT = 0) :
    typeGlyph (clearBits mode mask) = typeGlyph mode := by
  unfold typeGlyph S_ISDIR S_ISLNK S_ISCHR S_ISBLK S_ISFIFO S_ISSOCK
  rw [clearBits_and mode mask S_IFMT h]

theorem typeGlyph_congr (m₁ m₂ : Nat) (h : m₁ &&& S_IFMT = m₂ &&& S_IFMT) :
    typeGlyph m₁ = typeGlyph m₂ := by
  unfold typeGlyph S_ISDIR S_ISLNK S_ISCHR S_ISBLK S_ISFIFO S_ISSOCK
  rw [h]

/-- C1: for every mode, `format_permissions` writes exactly ten characters; character 0
is one of `d l c b p s -`, characters 1, 4, 7 are `r` or `-`, characters 2, 5, 8 are `w`
or `-`, characters 3 and 6 are one of `x - s S`, and character 9 is one of `x - t T`.
The function is total. -/
theorem format_permissions_alphabet (mode : Nat) :
    ∃ c0 c1 c2 c3 c4 c5 c6 c7 c8 c9 : Char,
      format_permissions mode = [c0, c1, c2, c3, c4, c5, c6, c7, c8, c9] ∧
      c0 ∈ ['d', 'l', 'c', 'b', 'p', 's', '-'] ∧
      c1 ∈ ['r', '-'] ∧ c4 ∈ ['r', '-'] ∧ c7 ∈ ['r', '-'] ∧
      c2 ∈ ['w', '-'] ∧ c5 ∈ ['w', '-'] ∧ c8 ∈ ['w', '-'] ∧
      c3 ∈ ['x', '-', 's', 'S'] ∧ c6 ∈ ['x', '-', 's', 'S'] ∧
      c9 ∈ ['x', '-', 't', 'T'] := by
  refine ⟨_, _, _, _, _, _, _, _, _, _, format_permissions_eq mode, ?_, ?_, ?_, ?_, ?_, ?_, ?_,
    ?_, ?_, ?_⟩
  · unfold typeGlyph; split_ifs <;> simp
  all_goals first
    | (split_ifs <;> simp)
    | (unfold execGlyph; split_ifs <;> simp)


/-- C2: character 0 of the output is `d`, `l`, `c`, `b`, `p` or `s` when the file-type
field `mode & 0170000` is the directory, symlink, char-device, block-device, FIFO or socket
pattern, and `-` for every other value of the field; two modes with the same file-type
field have the same character 0, whatever their permission and special bits. -/
theorem format_permissions_type_char (mode : Nat) :
    (mode &&& 0o170000 = 0o040000 → (format_permissions mode)[0]? = some 'd') ∧
    (mode &&& 0o170000 = 0o120000 → (format_permissions mode)[0]? = some 'l') ∧
    (mode &&& 0o170000 = 0o020000 → (format_permissions mode)[0]? = some 'c') ∧
    (mode &&& 0o170000 = 0o060000 → (format_permissions mode)[0]? = some 'b') ∧
    (mode &&& 0o170000 = 0o010000 → (format_permissions mode)[0]? = some 'p') ∧
    (mode &&& 0o170000 = 0o140000 → (format_permissions mode)[0]? = some 's') ∧
    (mode &&& 0o170000 ∉ [0o040000, 0o120000, 0o020000, 0o060000, 0o010000, 0o140000] →
      (format_permissions mode)[0]? = some '-') ∧
    (∀ other : Nat, other &&& 0o170000 = mode &&& 0o170000 →
      (format_permissions other)[0]? = (format_permissions mode)[0]?) := by
  simp only [getElem?_zero_format_permissions]
  refine ⟨?_, ?_, ?_, ?_, ?_, ?_, ?_, ?_⟩
  · intro h
    simp [typeGlyph, S_ISDIR, S_IFMT, S_IFDIR, h]
  · intro h
    simp [typeGlyph, S_ISDIR, S_ISLNK, S_IFMT, S_IFDIR, S_IFLNK, h]
  · intro h
    simp [typeGlyph, S_ISDIR, S_ISLNK, S_ISCHR, S_IFMT, S_IFDIR, S_IFLNK, S_IFCHR, h]
  · intro h
    simp [typeGlyph, S_ISDIR, S_ISLNK, S_ISCHR, S_ISBLK, S_IFMT, S_IFDIR, S_IFLNK, S_IFCHR,
      S_IFBLK, h]
  · intro h
    simp [typeGlyph, S_ISDIR, S_ISLNK, S_ISCHR, S_ISBLK, S_ISFIFO, S_IFMT, S_IFDIR, S_IFLNK,
      S_IFCHR, S_IFBLK, S_IFIFO, h]
  · intro h
    simp [typeGlyph, S_ISDIR, S_ISLNK, S_ISCHR, S_ISBLK, S_ISFIFO, S_ISSOCK, S_IFMT, S_IFDIR,
      S_IFLNK, S_IFCHR, S_IFBLK, S_IFIFO, S_IFSOCK, h]
  · intro h
    simp only [List.mem_cons, List.mem_singleton, List.not_mem_nil, or_false, not_or] at h
    obtain ⟨h1, h2, h3, h4, h5, h6⟩ := h
    simp [typeGlyph, S_ISDIR, S_ISLNK, S_ISCHR, S_ISBLK, S_ISFIFO, S_ISSOCK, S_IFMT, S_IFDIR,
      S_IFLNK, S_IFCHR, S_IFBLK, S_IFIFO, S_IFSOCK, h1, h2, h3, h4, h5, h6]
  · intro other h
    rw [typeGlyph_congr other mode h]

theorem format_permissions_type_char_witness :
    (format_permissions 0o040755)[0]? = some 'd' ∧
    (format_permissions 0o100644)[0]? = some '-' ∧
    (format_permissions 0o120777)[0]? = (format_permissions 0o120000)[0]? :=
  ⟨(format_permissions_type_char 0o040755).1 (by decide),
   (format_permissions_type_char 0o100644).2.2.2.2.2.2.1 (by decide),
   (format_permissions_type_char 0o120000).2.2.2.2.2.2.2 0o120777 (by decide)⟩


theorem ite_flag (mode mask : Nat) (a b : Char) :
    (if flag mode mask = true then a else b) = if mode &&& mask ≠ 0 then a else b := by
  by_cases h : mode &&& mask = 0 <;> simp [flag, h]

/-- C3: positions 1, 2, 4, 5, 7, 8 carry their letter (`r` at 1, 4, 7 and `w` at 2, 5, 8)
exactly when the single bit 0400, 0200, 0040, 0020, 0004, 0002 is set and `-` otherwise,
whatever the other bits are; an execute position 3, 6, 9 whose special bit (04000, 02000,
01000) is clear is `x` exactly when the execute bit 0100, 0010, 0001 is set, `-` otherwise. -/
theorem format_permissions_rwx (mode : Nat) :
    (format_permissions mode)[1]? = some (if mode &&& 0o400 ≠ 0 then 'r' else '-') ∧
    (format_permissions mode)[2]? = some (if mode &&& 0o200 ≠ 0 then 'w' else '-') ∧
    (format_permissions mode)[4]? = some (if mode &&& 0o040 ≠ 0 then 'r' else '-') ∧
    (format_permissions mode)[5]? = some (if mode &&& 0o020 ≠ 0 then 'w' else '-') ∧
    (format_permissions mode)[7]? = some (if mode &&& 0o004 ≠ 0 then 'r' else '-') ∧
    (format_permissions mode)[8]? = some (if mode &&& 0o002 ≠ 0 then 'w' else '-') ∧
    (mode &&& 0o4000 = 0 →
      (format_permissions mode)[3]? = some (if mode &&& 0o100 ≠ 0 then 'x' else '-')) ∧
    (mode &&& 0o2000 = 0 →
      (format_permissions mode)[6]? = some (if mode &&& 0o010 ≠ 0 then 'x' else '-')) ∧
    (mode &&& 0o1000 = 0 →
      (format_permissions mode)[9]? = some (if mode &&& 0o001 ≠ 0 then 'x' else '-')) := by
  rw [format_permissions_eq]
  refine ⟨?_, ?_, ?_, ?_, ?_, ?_, ?_, ?_, ?_⟩
  · exact congrArg some (ite_flag mode 0o400 'r' '-')
  · exact congrArg some (ite_flag mode 0o200 'w' '-')
  · exact congrArg some (ite_flag mode 0o040 'r' '-')
  · exact congrArg some (ite_flag mode 0o020 'w' '-')
  · exact congrArg some (ite_flag mode 0o004 'r' '-')
  · exact congrArg some (ite_flag mode 0o002 'w' '-')
  · intro h
    have hs : flag mode S_ISUID = false := (flag_eq_false_iff mode S_ISUID).2 h
    show some (execGlyph (flag mode S_ISUID) (flag mode S_IXUSR) 's' 'S') = _
    rw [hs]
    exact congrArg some (ite_flag mode 0o100 'x' '-')
  · intro h
    have hs : flag mode S_ISGID = false := (flag_eq_false_iff mode S_ISGID).2 h
    show some (execGlyph (flag mode S_ISGID) (flag mode S_IXGRP) 's' 'S') = _
    rw [hs]
    exact congrArg some (ite_flag mode 0o010 'x' '-')
  · intro h
    have hs : flag mode S_ISVTX = false := (flag_eq_false_iff mode S_ISVTX).2 h
    show some (execGlyph (flag mode S_ISVTX) (flag mode S_IXOTH) 't' 'T') = _
    rw [hs]
    exact congrArg some (ite_flag mode 0o001 'x' '-')

theorem format_permissions_rwx_witness :
    (format_permissions 0o100754)[3]? = some (if 0o100754 &&& 0o100 ≠ 0 then 'x' else '-') ∧
    (format_permissions 0o100754)[6]? = some (if 0o100754 &&& 0o010 ≠ 0 then 'x' else '-') ∧
    (format_permissions 0o100754)[9]? = some (if 0o100754 &&& 0o001 ≠ 0 then 'x' else '-') :=
  ⟨(format_permissions_rwx 0o100754).2.2.2.2.2.2.1 (by decide),
   (format_permissions_rwx 0o100754).2.2.2.2.2.2.2.1 (by decide),
   (format_permissions_rwx 0o100754).2.2.2.2.2.2.2.2 (by decide)⟩

theorem getElem?_congr_off (j k : Nat) (hj : j ≠ k)
    (a b : List Char) (ha : a.length = 10) (hb : b.length = 10)
    (h : ∀ i, i < 10 → i ≠ k → a[i]? = b[i]?) : a[j]? = b[j]? := by
  by_cases hlt : j < 10
  · exact h j hlt hj
  · rw [List.getElem?_eq_none (by omega), List.getElem?_eq_none (by omega)]

/-- C4: with setuid (04000) set, character 3 is `s` when owner-execute (0100) is set and `S`
otherwise; with setgid (02000) set, character 6 is `s` when group-execute (0010) is set and
`S` otherwise; with sticky (01000) set, character 9 is `t` when other-execute (0001) is set
and `T` otherwise. Every position other than the overridden one is the same as in the
output for the mode with that special bit cleared. -/
theorem format_permissions_special (mode : Nat) :
    (mode &&& 0o4000 ≠ 0 →
      (format_permissions mode)[3]? = some (if mode &&& 0o100 ≠ 0 then 's' else 'S')) ∧
    (mode &&& 0o2000 ≠ 0 →
      (format_permissions mode)[6]? = some (if mode &&& 0o010 ≠ 0 then 's' else 'S')) ∧
    (mode &&& 0o1000 ≠ 0 →
      (format_permissions mode)[9]? = some (if mode &&& 0o001 ≠ 0 then 't' else 'T')) ∧
    (∀ j : Nat, j ≠ 3 →
      (format_permissions mode)[j]? = (format_permissions (clearBits mode 0o4000))[j]?) ∧
    (∀ j : Nat, j ≠ 6 →
      (format_permissions mode)[j]? = (format_permissions (clearBits mode 0o2000))[j]?) ∧
    (∀ j : Nat, j ≠ 9 →
      (format_permissions mode)[j]? = (format_permissions (clearBits mode 0o1000))[j]?) := by
  refine ⟨?_, ?_, ?_, ?_, ?_, ?_⟩
  · intro h
    have hs : flag mode S_ISUID = true := (flag_eq_true_iff mode S_ISUID).2 h
    rw [format_permissions_eq]
    show some (execGlyph (flag mode S_ISUID) (flag mode S_IXUSR) 's' 'S') = _
    rw [hs]
    exact congrArg some (ite_flag mode 0o100 's' 'S')
  · intro h
    have hs : flag mode S_ISGID = true := (flag_eq_true_iff mode S_ISGID).2 h
    rw [format_permissions_eq]
    show some (execGlyph (flag mode S_ISGID) (flag mode S_IXGRP) 's' 'S') = _
    rw [hs]
    exact congrArg some (ite_flag mode 0o010 's' 'S')
  · intro h
    have hs : flag mode S_ISVTX = true := (flag_eq_true_iff mode S_ISVTX).2 h
    rw [format_permissions_eq]
    show some (execGlyph (flag mode S_ISVTX) (flag mode S_IXOTH) 't' 'T') = _
    rw [hs]
    exact congrArg some (ite_flag mode 0o001 't' 'T')
  · intro j hj
    rw [format_permissions_eq, format_permissions_eq,
      typeGlyph_clearBits mode 0o4000 (by decide),
      flag_clearBits mode 0o4000 S_IRUSR (by decide), flag_clearBits mode 0o4000 S_IWUSR (by decide),
      flag_clearBits mode 0o4000 S_IXUSR (by decide), flag_clearBits mode 0o4000 S_IRGRP (by decide),
      flag_clearBits mode 0o4000 S_IWGRP (by decide), flag_clearBits mode 0o4000 S_IXGRP (by decide),
      flag_clearBits mode 0o4000 S_IROTH (by decide), flag_clearBits mode 0o4000 S_IWOTH (by decide),
      flag_clearBits mode 0o4000 S_IXOTH (by decide), flag_clearBits mode 0o4000 S_ISGID (by decide),
      flag_clearBits mode 0o4000 S_ISVTX (by decide)]
    refine getElem?_congr_off j 3 hj _ _ rfl rfl ?_
    intro i hi hne
    interval_cases i <;> first | rfl | exact absurd rfl hne
  · intro j hj
    rw [format_permissions_eq, format_permissions_eq,
      typeGlyph_clearBits mode 0o2000 (by decide),
      flag_clearBits mode 0o2000 S_IRUSR (by decide), flag_clearBits mode 0o2000 S_IWUSR (by decide),
      flag_clearBits mode 0o2000 S_IXUSR (by decide), flag_clearBits mode 0o2000 S_IRGRP (by decide),
      flag_clearBits mode 0o2000 S_IWGRP (by decide), flag_clearBits mode 0o2000 S_IXGRP (by decide),
      flag_clearBits mode 0o2000 S_IROTH (by decide), flag_clearBits mode 0o2000 S_IWOTH (by decide),
      flag_clearBits mode 0o2000 S_IXOTH (by decide), flag_clearBits mode 0o2000 S_ISUID (by decide),
      flag_clearBits mode 0o2000 S_ISVTX (by decide)]
    refine getElem?_congr_off j 6 hj _ _ rfl rfl ?_
    intro i hi hne
    interval_cases i <;> first | rfl | exact absurd rfl hne
  · intro j hj
    rw [format_permissions_eq, format_permissions_eq,
      typeGlyph_clearBits mode 0o1000 (by decide),
      flag_clearBits mode 0o1000 S_IRUSR (by decide), flag_clearBits mode 0o1000 S_IWUSR (by decide),
      flag_clearBits mode 0o1000 S_IXUSR (by decide), flag_clearBits mode 0o1000 S_IRGRP (by decide),
      flag_clearBits mode 0o1000 S_IWGRP (by decide), flag_clearBits mode 0o1000 S_IXGRP (by decide),
      flag_clearBits mode 0o1000 S_IROTH (by decide), flag_clearBits mode 0o1000 S_IWOTH (by decide),
      flag_clearBits mode 0o1000 S_IXOTH (by decide), flag_clearBits mode 0o1000 S_ISUID (by decide),
      flag_clearBits mode 0o1000 S_ISGID (by decide)]
    refine getElem?_congr_off j 9 hj _ _ rfl rfl ?_
    intro i hi hne
    interval_cases i <;> first | rfl | exact absurd rfl hne

theorem format_permissions_special_witness :
    (format_permissions 0o107755)[3]? = some (if 0o107755 &&& 0o100 ≠ 0 then 's' else 'S') ∧
    (format_permissions 0o107644)[6]? = some (if 0o107644 &&& 0o010 ≠ 0 then 's' else 'S') ∧
    (format_permissions 0o041777)[9]? = some (if 0o041777 &&& 0o001 ≠ 0 then 't' else 'T') ∧
    (format_permissions 0o104755)[0]? = (format_permissions (clearBits 0o104755 0o4000))[0]? :=
  ⟨(format_permissions_special 0o107755).1 (by decide),
   (format_permissions_special 0o107644).2.1 (by decide),
   (format_permissions_special 0o041777).2.2.1 (by decide),
   (format_permissions_special 0o104755).2.2.2.1 0 (by decide)⟩


theorem firstMatch_of_mem (mode : Nat) (glyph : Char) :
    ∀ tests : List (Nat × Char), (tests.map Prod.fst).Nodup →
      (mode &&& S_IFMT, glyph) ∈ tests → firstMatch tests mode = glyph
  | [], _, hmem => by simp at hmem
  | (pat, g) :: rest, hnd, hmem => by
    rw [List.map_cons, List.nodup_cons] at hnd
    rw [firstMatch]
    rcases List.mem_cons.1 hmem with heq | hrest
    · cases heq
      simp
    · have hne : mode &&& S_IFMT ≠ pat := by
        intro hp
        exact hnd.1 (List.mem_map.2 ⟨_, hrest, hp⟩)
      simp only [beq_iff_eq, hne, if_false]
      exact firstMatch_of_mem mode glyph rest hnd.2 hrest

theorem firstMatch_of_not_mem (mode : Nat) :
    ∀ tests : List (Nat × Char), mode &&& S_IFMT ∉ tests.map Prod.fst →
      firstMatch tests mode = '-'
  | [], _ => rfl
  | (pat, g) :: rest, h => by
    rw [List.map_cons, List.mem_cons, not_or] at h
    rw [firstMatch]
    simp only [beq_iff_eq, h.1, if_false]
    exact firstMatch_of_not_mem mode rest h.2

theorem firstMatch_perm (mode : Nat) (tests₁ tests₂ : List (Nat × Char))
    (hnd : (tests₂.map Prod.fst).Nodup) (hp : tests₁.Perm tests₂) :
    firstMatch tests₁ mode = firstMatch tests₂ mode := by
  have hnd₁ : (tests₁.map Prod.fst).Nodup := ((hp.map Prod.fst).nodup_iff).2 hnd
  by_cases hk : mode &&& S_IFMT ∈ tests₂.map Prod.fst
  · obtain ⟨⟨pat, g⟩, hmem, hpat⟩ := List.mem_map.1 hk
    simp only at hpat
    subst hpat
    rw [firstMatch_of_mem mode g tests₂ hnd hmem,
      firstMatch_of_mem mode g tests₁ hnd₁ (hp.mem_iff.2 hmem)]
  · have hk₁ : mode &&& S_IFMT ∉ tests₁.map Prod.fst := by
      intro h
      exact hk (((hp.map Prod.fst).mem_iff).1 h)
    rw [firstMatch_of_not_mem mode tests₂ hk, firstMatch_of_not_mem mode tests₁ hk₁]

/-- C10: for every mode at most one of the six file-type tests of `format_permissions`
holds; hence running the six tests in any order (any permutation of the source order)
selects the same glyph, which is the character the function writes at position 0. -/
theorem type_tests_exclusive (mode : Nat) :
    ([S_ISDIR mode, S_ISLNK mode, S_ISCHR mode, S_ISBLK mode, S_ISFIFO mode,
        S_ISSOCK mode].count true ≤ 1) ∧
    (∀ tests : List (Nat × Char), tests.Perm typeTests →
      (format_permissions mode)[0]? = some (firstMatch tests mode)) := by
  constructor
  · unfold S_ISDIR S_ISLNK S_ISCHR S_ISBLK S_ISFIFO S_ISSOCK
    generalize mode &&& S_IFMT = v
    by_cases h1 : v = S_IFDIR
    · subst h1; decide
    by_cases h2 : v = S_IFLNK
    · subst h2; decide
    by_cases h3 : v = S_IFCHR
    · subst h3; decide
    by_cases h4 : v = S_IFBLK
    · subst h4; decide
    by_cases h5 : v = S_IFIFO
    · subst h5; decide
    by_cases h6 : v = S_IFSOCK
    · subst h6; decide
    simp [h1, h2, h3, h4, h5, h6]
  · intro tests hp
    rw [getElem?_zero_format_permissions, typeGlyph_eq_firstMatch,
      firstMatch_perm mode tests typeTests (by decide) hp]

theorem type_tests_exclusive_witness :
    (format_permissions 0o060660)[0]? =
      some (firstMatch [(S_IFSOCK, 's'), (S_IFIFO, 'p'), (S_IFBLK, 'b'), (S_IFCHR, 'c'),
        (S_IFLNK, 'l'), (S_IFDIR, 'd')] 0o060660) :=
  (type_tests_exclusive 0o060660).2 _ (List.reverse_perm typeTests)


/-! ## The directory lister -/

theorem longDir_length : longDir.length = 1019 := by
  simp only [longDir, List.length_append, List.length_cons, List.length_replicate]

theorem full_path_eq_iff (path d_name : CStr) :
    full_path path d_name = path ++ '/' :: d_name ↔ path.length + 1 + d_name.length ≤ 1023 := by
  unfold full_path snprintf_path
  rw [List.take_eq_self_iff]
  simp only [List.length_append, List.length_cons]
  omega

/-- C9 (the code at the failing input): for a directory path of 1019 bytes and the entry
name `notes.txt`, the path handed to `lstat` and `readlink` is cut after 1023 bytes: it
ends in `/not` and is not the directory path, a `/` and the entry name. -/
theorem full_path_truncated :
    full_path longDir "notes.txt".toList = longDir ++ "/not".toList ∧
    full_path longDir "notes.txt".toList ≠ longDir ++ '/' :: "notes.txt".toList := by
  have hlen : longDir.length = 1019 := longDir_length
  constructor
  · have hsplit : longDir ++ '/' :: "notes.txt".toList =
        (longDir ++ "/not".toList) ++ "es.txt".toList := by simp
    unfold full_path snprintf_path
    rw [hsplit]
    exact List.take_left' (by simp [hlen])
  · intro h
    have hle := (full_path_eq_iff longDir "notes.txt".toList).1 h
    rw [hlen] at hle
    simp at hle


/-! ## Column layout -/

theorem toDigitsCore_length_ge (fuel : Nat) :
    ∀ (n : Nat) (acc : List Char), acc.length ≤ (Nat.toDigitsCore 10 fuel n acc).length := by
  induction fuel with
  | zero => intro n acc; simp [Nat.toDigitsCore]
  | succ fuel ih =>
    intro n acc
    simp only [Nat.toDigitsCore]
    split
    · simp
    · exact Nat.le_trans (by simp) (ih (n / 10) _)

theorem toDigitsCore_length_le_iff (fuel : Nat) :
    ∀ (n : Nat) (acc : List Char) (k : Nat), n < fuel → 1 ≤ k →
      ((Nat.toDigitsCore 10 fuel n acc).length ≤ acc.length + k ↔ n < 10 ^ k) := by
  induction fuel with
  | zero => intro n acc k h; omega
  | succ fuel ih =>
    intro n acc k hn hk
    simp only [Nat.toDigitsCore]
    obtain ⟨j, rfl⟩ : ∃ j, k = j + 1 := ⟨k - 1, by omega⟩
    have hpow : 10 ^ (j + 1) = 10 ^ j * 10 := pow_succ 10 j
    have hpos : 0 < 10 ^ j := Nat.pow_pos (by decide)
    split
    · rename_i h0
      simp only [List.length_cons]
      constructor
      · intro _
        have : n < 10 := by omega
        omega
      · intro _; omega
    · rename_i h0
      have hlt : n / 10 < fuel := by omega
      rcases Nat.eq_zero_or_pos j with hj | hj
      · subst hj
        -- `n / 10 ≠ 0`, so at least one more digit is produced
        obtain ⟨f, rfl⟩ : ∃ f, fuel = f + 1 := ⟨fuel - 1, by omega⟩
        simp only [Nat.toDigitsCore]
        constructor
        · intro hle
          exfalso
          split at hle
          · simp at hle
          · have := toDigitsCore_length_ge f (n / 10 / 10)
              (Nat.digitChar (n / 10 % 10) :: Nat.digitChar (n % 10) :: acc)
            simp at this
            omega
        · intro h; simp at h; omega
      · have := ih (n / 10) (Nat.digitChar (n % 10) :: acc) j hlt hj
        simp only [List.length_cons] at this
        rw [show acc.length + (j + 1) = acc.length + 1 + j by omega, this, hpow]
        omega

theorem toDigits_length_le_iff (n k : Nat) (hk : 1 ≤ k) :
    (Nat.toDigits 10 n).length ≤ k ↔ n < 10 ^ k := by
  have := toDigitsCore_length_le_iff (n + 1) n [] k (by omega) hk
  simpa [Nat.toDigits] using this

theorem fmt_lu_length_le_iff (n : Nat) : (fmt_lu n).length ≤ 5 ↔ n < 100000 := by
  unfold fmt_lu
  rw [toDigits_length_le_iff n 5 (by decide)]
  norm_num

theorem fmt_ld_length_le_iff (i : Int) :
    (fmt_ld i).length ≤ 8 ↔ -10000000 < i ∧ i < 100000000 := by
  unfold fmt_ld
  by_cases h : i < 0
  · rw [if_pos h, List.length_cons, show (8 : Nat) = 7 + 1 from rfl, Nat.add_le_add_iff_right,
      toDigits_length_le_iff i.natAbs 7 (by decide)]
    norm_num
    omega
  · rw [if_neg h, toDigits_length_le_iff i.natAbs 8 (by decide)]
    norm_num
    omega

theorem length_padLeft (width : Nat) (text : CStr) :
    (padLeft width text).length = max width text.length := by
  simp only [padLeft, List.length_append, List.length_replicate]
  omega

theorem length_padRight (width : Nat) (text : CStr) :
    (padRight width text).length = max width text.length := by
  simp only [padRight, List.length_append, List.length_replicate]
  omega

theorem length_format_permissions (mode : Nat) : (format_permissions mode).length = 10 := by
  rw [format_permissions_eq]
  rfl

theorem print_row_split (permissions_str : CStr) (st_nlink : Nat) (owner_name group_name : CStr)
    (st_size : Int) (time_str d_name : CStr) :
    print_row permissions_str st_nlink owner_name group_name st_size time_str d_name =
      print_row permissions_str st_nlink owner_name group_name st_size time_str [] ++ d_name := by
  simp [print_row]

theorem length_print_row_nil (mode : Nat) (st_nlink : Nat) (owner_name group_name : CStr)
    (st_size : Int) (time_str : CStr) :
    (print_row (format_permissions mode) st_nlink owner_name group_name st_size time_str []).length =
      10 + 1 + (max 5 (fmt_lu (toULong st_nlink)).length + 1) + (max 14 owner_name.length + 1) +
        (max 12 group_name.length + 1) + (max 8 (fmt_ld (toLong st_size)).length + 1) +
        (max 12 time_str.length + 1) := by
  simp only [print_row, List.length_append, List.length_cons, List.length_nil, length_padLeft,
    length_padRight, length_format_permissions]
  omega

/-- C8 (as amended): every column is printed in full, padded with blanks to at least its
width (10, 5, 14, 12, 8, 12) and followed by one blank, and the name is printed last,
unpadded and in full. The name starts at byte offset 67, under `Name` in the header,
exactly when every column text fits its width; it never starts before offset 67. -/
theorem row_name_offset (mode : Nat) (st_nlink : Nat) (owner_name group_name : CStr)
    (st_size : Int) (time_str d_name : CStr) :
    print_row (format_permissions mode) st_nlink owner_name group_name st_size time_str d_name =
      print_row (format_permissions mode) st_nlink owner_name group_name st_size time_str []
        ++ d_name ∧
    print_row (format_permissions mode) st_nlink owner_name group_name st_size time_str [] =
      format_permissions mode ++
      ' ' :: (List.replicate (5 - (fmt_lu (toULong st_nlink)).length) ' ' ++
        fmt_lu (toULong st_nlink)) ++
      ' ' :: (owner_name ++ List.replicate (14 - owner_name.length) ' ') ++
      ' ' :: (group_name ++ List.replicate (12 - group_name.length) ' ') ++
      ' ' :: (List.replicate (8 - (fmt_ld (toLong st_size)).length) ' ' ++
        fmt_ld (toLong st_size)) ++
      ' ' :: (time_str ++ List.replicate (12 - time_str.length) ' ') ++ [' '] ∧
    (print_row (format_permissions mode) st_nlink owner_name group_name st_size time_str []).length =
      10 + 1 + (max 5 (fmt_lu (toULong st_nlink)).length + 1) + (max 14 owner_name.length + 1) +
        (max 12 group_name.length + 1) + (max 8 (fmt_ld (toLong st_size)).length + 1) +
        (max 12 time_str.length + 1) ∧
    ((print_row (format_permissions mode) st_nlink owner_name group_name st_size time_str
        d_name).drop 67 = d_name ↔
      columns_fit st_nlink owner_name group_name st_size time_str) ∧
    header_line.drop 67 = "Name".toList ++ ['\n'] := by
  have hlen := length_print_row_nil mode st_nlink owner_name group_name st_size time_str
  have hlu := fmt_lu_length_le_iff (toULong st_nlink)
  have hld := fmt_ld_length_le_iff (toLong st_size)
  have hcols : print_row (format_permissions mode) st_nlink owner_name group_name st_size
      time_str [] =
      format_permissions mode ++
      ' ' :: (List.replicate (5 - (fmt_lu (toULong st_nlink)).length) ' ' ++
        fmt_lu (toULong st_nlink)) ++
      ' ' :: (owner_name ++ List.replicate (14 - owner_name.length) ' ') ++
      ' ' :: (group_name ++ List.replicate (12 - group_name.length) ' ') ++
      ' ' :: (List.replicate (8 - (fmt_ld (toLong st_size)).length) ' ' ++
        fmt_ld (toLong st_size)) ++
      ' ' :: (time_str ++ List.replicate (12 - time_str.length) ' ') ++ [' '] := by
    simp [print_row, padLeft, padRight, length_format_permissions]
  refine ⟨print_row_split _ _ _ _ _ _ _, hcols, hlen, ?_, by decide⟩
  rw [print_row_split]
  generalize print_row (format_permissions mode) st_nlink owner_name group_name st_size
    time_str [] = pre at hlen
  unfold columns_fit
  constructor
  · intro hdrop
    have hl := congrArg List.length hdrop
    rw [List.length_drop, List.length_append] at hl
    have h67 : pre.length = 67 := by omega
    rw [h67] at hlen
    have h1 : (fmt_lu (toULong st_nlink)).length ≤ 5 := by omega
    have h2 : (fmt_ld (toLong st_size)).length ≤ 8 := by omega
    have h3 := hlu.1 h1
    have h4 := hld.1 h2
    refine ⟨h3, by omega, by omega, h4.1, h4.2, by omega⟩
  · rintro ⟨h1, h2, h3, h4, h5, h6⟩
    have h7 := hlu.2 h1
    have h8 := hld.2 ⟨h4, h5⟩
    have h67 : pre.length = 67 := by omega
    rw [← h67]
    exact List.drop_left pre d_name

theorem row_name_offset_witness :
    (print_row (format_permissions 0o100644) 1 "root".toList "root".toList 1234
      "Jun 04 16:46".toList "a.txt".toList).drop 67 = "a.txt".toList :=
  (row_name_offset 0o100644 1 "root".toList "root".toList 1234 "Jun 04 16:46".toList
    "a.txt".toList).2.2.2.1.2 (by unfold columns_fit; decide)

/-- C8 (counterexample): a file of 123456789 bytes has a size column of 9 characters, so its
name starts at byte offset 68 and not at 67. -/
theorem row_name_offset_counterexample :
    (print_row (format_permissions 0o100644) 1 "root".toList "root".toList 123456789
      "Jun 04 16:46".toList "big.iso".toList).drop 67 ≠ "big.iso".toList ∧
    (print_row (format_permissions 0o100644) 1 "root".toList "root".toList 123456789
      "Jun 04 16:46".toList "big.iso".toList).drop 68 = "big.iso".toList := by
  decide

end Myls
